import Mathlib

/-!
Shallow embedding of the deepviewrt-rs wrapper layer (src/tensor.rs,
src/context.rs, src/engine.rs, src/model.rs, src/error.rs).

The native runtime (deepviewrt-sys, an external C ABI) is not part of the
repository; its calls are modelled as explicit oracle parameters or as
fields of an explicit native-state record, following the external-interface
contract of the specification (null/zero sentinels for failure, C strings
as NUL-terminated byte runs).  Machine integer casts (`as usize`, `as i32`)
are modelled arithmetically on `Int`/`Nat` with explicit `% 2^w`.
-/

deriving instance DecidableEq for Except

namespace DeepViewRT

/-- The 13 tensor element types of `TensorType` in src/tensor.rs. -/
inductive TensorType
  | RAW
  | STR
  | I8
  | U8
  | I16
  | U16
  | I32
  | U32
  | I64
  | U64
  | F16
  | F32
  | F64
deriving DecidableEq, Repr

/-- Discriminant of each `TensorType` variant (`RAW = 0` … `F64 = 12`). -/
def TensorType.tag : TensorType → Nat
  | .RAW => 0
  | .STR => 1
  | .I8 => 2
  | .U8 => 3
  | .I16 => 4
  | .U16 => 5
  | .I32 => 6
  | .U32 => 7
  | .I64 => 8
  | .U64 => 9
  | .F16 => 10
  | .F32 => 11
  | .F64 => 12

/-- The `TryFrom<u32> for TensorType` conversion in src/tensor.rs. -/
def TensorType.tryFrom (value : Nat) : Option TensorType :=
  match value with
  | 0 => some .RAW
  | 1 => some .STR
  | 2 => some .I8
  | 3 => some .U8
  | 4 => some .I16
  | 5 => some .U16
  | 6 => some .I32
  | 7 => some .U32
  | 8 => some .I64
  | 9 => some .U64
  | 10 => some .F16
  | 11 => some .F32
  | 12 => some .F64
  | _ => none

/-- A UTF-8 continuation byte (0x80 ..= 0xBF). -/
def contByte (b : Nat) : Bool := decide (0x80 ≤ b ∧ b ≤ 0xBF)

/-- UTF-8 validity of a byte sequence, as checked by Rust's
`str::from_utf8` / `CStr::to_str` (RFC 3629 table, rejecting overlong
encodings and surrogates). -/
def utf8Valid : List Nat → Bool
  | [] => true
  | b :: rest =>
    if b ≤ 0x7F then utf8Valid rest
    else if 0xC2 ≤ b ∧ b ≤ 0xDF then
      match rest with
      | c1 :: r => contByte c1 && utf8Valid r
      | [] => false
    else if b = 0xE0 then
      match rest with
      | c1 :: c2 :: r => decide (0xA0 ≤ c1 ∧ c1 ≤ 0xBF) && contByte c2 && utf8Valid r
      | _ => false
    else if 0xE1 ≤ b ∧ b ≤ 0xEC then
      match rest with
      | c1 :: c2 :: r => contByte c1 && contByte c2 && utf8Valid r
      | _ => false
    else if b = 0xED then
      match rest with
      | c1 :: c2 :: r => decide (0x80 ≤ c1 ∧ c1 ≤ 0x9F) && contByte c2 && utf8Valid r
      | _ => false
    else if 0xEE ≤ b ∧ b ≤ 0xEF then
      match rest with
      | c1 :: c2 :: r => contByte c1 && contByte c2 && utf8Valid r
      | _ => false
    else if b = 0xF0 then
      match rest with
      | c1 :: c2 :: c3 :: r =>
        decide (0x90 ≤ c1 ∧ c1 ≤ 0xBF) && contByte c2 && contByte c3 && utf8Valid r
      | _ => false
    else if 0xF1 ≤ b ∧ b ≤ 0xF3 then
      match rest with
      | c1 :: c2 :: c3 :: r => contByte c1 && contByte c2 && contByte c3 && utf8Valid r
      | _ => false
    else if b = 0xF4 then
      match rest with
      | c1 :: c2 :: c3 :: r =>
        decide (0x80 ≤ c1 ∧ c1 ≤ 0x8F) && contByte c2 && contByte c3 && utf8Valid r
      | _ => false
    else false

/-- Bytes of the C string starting at a pointer, as read by
`CStr::from_ptr`: the byte run up to (excluding) the first NUL. -/
def cstrBytes (mem : List Nat) : List Nat := mem.takeWhile (fun b => decide (b ≠ 0))

/-- The error taxonomy of src/error.rs.  `NNError` carries its message as
the decoded byte string; `IoError` abstracts `std::io::ErrorKind` as a
numeric code. -/
inductive Error
  | NNError (msg : List Nat)
  | WrapperError (msg : String)
  | Null
  | IoError (kind : Nat)
deriving DecidableEq, Repr

/-- The `From<ffi::NNError> for Error` conversion in src/error.rs: look up
the message via `nn_strerror` (the `strerror` oracle, `none` = null
pointer), decode it, and fall back to `Error::Null` when the pointer is
null or the text is invalid. -/
def Error.fromCode (strerror : Nat → Option (List Nat)) (code : Nat) : Error :=
  match strerror code with
  | none => .Null
  | some mem =>
    let bytes := cstrBytes mem
    if utf8Valid bytes then .NNError bytes else .Null

/-- The `as usize` cast of a (possibly negative) machine integer value,
two's-complement on 64 bits. -/
def usizeCast (a : Int) : Nat := (a % (2 ^ 64 : Int)).toNat

/-- The `as i32` cast of a `usize` value, two's-complement wrap into
the signed 32-bit range. -/
def i32Cast (n : Nat) : Int := Int.bmod (n : Int) (2 ^ 32)

/-- Native state of an `NNTensor` handle, as observed through the FFI
calls used by src/tensor.rs.  `ttype` is the runtime-reported element type
(`nn_tensor_type`; the spec states the runtime never reports outside the
13-variant set, so the `TryFrom::try_from(...).unwrap()` in
`Tensor::tensor_type` never fires and the tag is stored decoded).  `size`
is the `i32` returned by `nn_tensor_size`, `axis` the `i16` from
`nn_tensor_axis`.  `mapped` is the byte region `nn_tensor_mapro` exposes;
`none` models a null return (mapping refused). -/
structure NNTensor where
  ttype : TensorType
  size : Int
  axis : Int
  mapped : Option (List Nat)
deriving DecidableEq, Repr

/-- The `MappedData` enum of src/tensor.rs (same `repr(u8)` discriminants).
Typed slices are embedded untyped: each numeric variant carries the list of
its elements as byte chunks of the element width, and `STR` carries the
UTF-8 bytes of the decoded `&str`. -/
inductive MappedData
  | RAW (xs : List (List Nat))
  | STR (s : List Nat)
  | I8 (xs : List (List Nat))
  | U8 (xs : List (List Nat))
  | I16 (xs : List (List Nat))
  | U16 (xs : List (List Nat))
  | I32 (xs : List (List Nat))
  | U32 (xs : List (List Nat))
  | I64 (xs : List (List Nat))
  | U64 (xs : List (List Nat))
  | F16 (xs : List (List Nat))
  | F32 (xs : List (List Nat))
  | F64 (xs : List (List Nat))
deriving DecidableEq, Repr

/-- Discriminant of each `MappedData` variant (`RAW = 0` … `F64 = 12`). -/
def MappedData.tag : MappedData → Nat
  | .RAW _ => 0
  | .STR _ => 1
  | .I8 _ => 2
  | .U8 _ => 3
  | .I16 _ => 4
  | .U16 _ => 5
  | .I32 _ => 6
  | .U32 _ => 7
  | .I64 _ => 8
  | .U64 _ => 9
  | .F16 _ => 10
  | .F32 _ => 11
  | .F64 _ => 12

/-- Number of elements held by a `MappedData` view (slice length; for
`STR`, the byte length of the `&str`). -/
def MappedData.count : MappedData → Nat
  | .RAW xs => xs.length
  | .STR s => s.length
  | .I8 xs => xs.length
  | .U8 xs => xs.length
  | .I16 xs => xs.length
  | .U16 xs => xs.length
  | .I32 xs => xs.length
  | .U32 xs => xs.length
  | .I64 xs => xs.length
  | .U64 xs => xs.length
  | .F16 xs => xs.length
  | .F32 xs => xs.length
  | .F64 xs => xs.length

/-- One element of width `w` read from memory at byte offset `off`
(out-of-range bytes read as 0; the values are never inspected by the
wrapper, only the element count matters). -/
def readChunk (mem : List Nat) (off w : Nat) : List Nat :=
  (List.range w).map (fun j => mem.getD (off + j) 0)

/-- The effect of `slice::from_raw_parts(ptr, n)` over a mapped region:
exactly `n` elements of width `w`. -/
def readElems (w n : Nat) (mem : List Nat) : List (List Nat) :=
  (List.range n).map (fun i => readChunk mem (i * w) w)

/-- The private `Tensor::mapro_` helper: `nn_tensor_mapro`, with a
`WrapperError` on a null return. -/
def NNTensor.maproRaw (t : NNTensor) : Except Error (List Nat) :=
  match t.mapped with
  | none => .error (.WrapperError "nn_tensor_mapro failed")
  | some mem => .ok mem

/-- The `Tensor::mapro` dispatch of src/tensor.rs: match on the
runtime-reported type, map the storage, and build one `MappedData` view of
`size() as usize` elements — except the `STR` branch, which decodes a
NUL-terminated byte run as text (its `to_str()?` failure maps into the
error taxonomy), and the `F16` branch, which constructs `MappedData::RAW`
as written in the source. -/
def NNTensor.mapro (t : NNTensor) : Except Error MappedData :=
  let n := usizeCast t.size
  match t.ttype with
  | .RAW =>
    match t.maproRaw with
    | .error e => .error e
    | .ok mem => .ok (.RAW (readElems 1 n mem))
  | .STR =>
    match t.maproRaw with
    | .error e => .error e
    | .ok mem =>
      let bytes := cstrBytes mem
      if utf8Valid bytes then .ok (.STR bytes)
      else .error (.WrapperError "invalid utf-8 sequence")
  | .I8 =>
    match t.maproRaw with
    | .error e => .error e
    | .ok mem => .ok (.I8 (readElems 1 n mem))
  | .U8 =>
    match t.maproRaw with
    | .error e => .error e
    | .ok mem => .ok (.U8 (readElems 1 n mem))
  | .I16 =>
    match t.maproRaw with
    | .error e => .error e
    | .ok mem => .ok (.I16 (readElems 2 n mem))
  | .U16 =>
    match t.maproRaw with
    | .error e => .error e
    | .ok mem => .ok (.U16 (readElems 2 n mem))
  | .I32 =>
    match t.maproRaw with
    | .error e => .error e
    | .ok mem => .ok (.I32 (readElems 4 n mem))
  | .U32 =>
    match t.maproRaw with
    | .error e => .error e
    | .ok mem => .ok (.U32 (readElems 4 n mem))
  | .I64 =>
    match t.maproRaw with
    | .error e => .error e
    | .ok mem => .ok (.I64 (readElems 8 n mem))
  | .U64 =>
    match t.maproRaw with
    | .error e => .error e
    | .ok mem => .ok (.U64 (readElems 8 n mem))
  | .F16 =>
    match t.maproRaw with
    | .error e => .error e
    | .ok mem => .ok (.RAW (readElems 1 n mem))
  | .F32 =>
    match t.maproRaw with
    | .error e => .error e
    | .ok mem => .ok (.F32 (readElems 4 n mem))
  | .F64 =>
    match t.maproRaw with
    | .error e => .error e
    | .ok mem => .ok (.F64 (readElems 8 n mem))

/-- Number of `nn_tensor_unmap` calls performed over a full
`mapro()`-and-drop cycle.  A `TensorData` view is constructed only on the
`Ok` exits of `Tensor::mapro`; its `Drop` impl (src/tensor.rs lines 87-91)
then runs exactly once when the view is dropped, by any exit path, calling
`unmap`.  On the error exits no view exists, so no `Drop` glue and no
unmap runs — in particular on the `STR` branch's `to_str()?` failure after
a successful map. -/
def maproCycleUnmaps (t : NNTensor) : Nat :=
  match t.mapro with
  | .ok _ => 1
  | .error _ => 0

/-- The wrapper-level state touched by `Tensor::set_scales`: the native
quantization axis (`nn_tensor_axis`, an `i16`) and the wrapper's cached
`scales: Option<Vec<f32>>` field.  The scale values are never inspected by
the wrapper, only copied, so the element type is a parameter. -/
structure TensorScalesState (α : Type) where
  axis : Int
  scales : Option (List α)
deriving Repr

/-- Outcome of `Tensor::set_scales`: the updated wrapper state, the
returned result, and whether `nn_tensor_set_scales` was invoked. -/
structure SetScalesResult (α : Type) where
  state : TensorScalesState α
  result : Except Error Unit
  forwarded : Bool

/-- The `Tensor::set_scales` of src/tensor.rs: the cached `scales` field
is overwritten with a copy of the argument first; then the length check
`scales.len() < (self.axis() as usize) || scales.len() != 1` rejects with
a `WrapperError` before any forwarding; otherwise `nn_tensor_set_scales`
is called and `Ok(())` returned. -/
def setScales {α : Type} (t : TensorScalesState α) (scales : List α) : SetScalesResult α :=
  let t1 : TensorScalesState α := { t with scales := some scales }
  if scales.length < usizeCast t.axis ∨ scales.length ≠ 1 then
    { state := t1
      result := .error (.WrapperError
        "scales should either have length of 1 or equal to channel_dimension (axis)")
      forwarded := false }
  else
    { state := t1, result := .ok (), forwarded := true }

/-- Outcome of a native string accessor call followed by the wrapper's
decode of src/engine.rs (`Engine::name` / `Engine::version`): no value
(null pointer), a decoded value, or a panic from `to_str().unwrap()`. -/
inductive StrOutcome
  | noValue
  | value (s : List Nat)
  | panicked
deriving DecidableEq, Repr

/-- The `Engine::name` of src/engine.rs: `nn_engine_name` (the oracle
argument; `none` = null) then `CStr::from_ptr(...).to_str().unwrap()` —
the unwrap panics when the C string is not valid UTF-8. -/
def Engine.nameCall (native : Option (List Nat)) : StrOutcome :=
  match native with
  | none => .noValue
  | some mem =>
    let bytes := cstrBytes mem
    if utf8Valid bytes then .value bytes else .panicked

/-- The `Engine::version` of src/engine.rs, same shape as `Engine::name`
over `nn_engine_version`. -/
def Engine.versionCall (native : Option (List Nat)) : StrOutcome :=
  match native with
  | none => .noValue
  | some mem =>
    let bytes := cstrBytes mem
    if utf8Valid bytes then .value bytes else .panicked

/-- Outcome of `Engine::new`: the returned result (an owned engine handle
on success) and the number of `nn_engine_release` calls performed during
the call (by the `Drop` impl of the local `engine` value on the error
paths; ownership moves to the caller on success). -/
structure EngineNewOutcome where
  result : Except Error Nat
  releases : Nat
deriving DecidableEq, Repr

/-- The `Engine::new` of src/engine.rs.  `allocResult` models
`nn_engine_init` (`none` = null), `path` the bytes of the path argument,
`load` models `nn_engine_load` (returning an `NNError` code, 0 =
`NN_SUCCESS`), `strerror` models `nn_strerror`.  `CString::new(path)`
fails exactly when `path` holds an embedded NUL byte.  Once the owned
`engine` value exists, every early `return Err` drops it, releasing the
handle exactly once. -/
def Engine.new (allocResult : Option Nat) (path : List Nat)
    (load : Nat → List Nat → Nat) (strerror : Nat → Option (List Nat)) : EngineNewOutcome :=
  match allocResult with
  | none =>
    { result := .error (.WrapperError "nn_engine_init memory allocated failed"), releases := 0 }
  | some h =>
    if path.contains 0 then
      { result := .error (.WrapperError "nul byte found in provided data"), releases := 1 }
    else
      let ret := load h path
      if ret ≠ 0 then
        { result := .error (Error.fromCode strerror ret), releases := 1 }
      else
        { result := .ok h, releases := 0 }

/-- State of a `Context` wrapper together with the native model slot it
controls.  `nativeModel` is the runtime's parsed model view
(`nn_context_model`; modelled from the spec: `nn_context_model_unload`
releases it and tolerates "nothing loaded", and a failed
`nn_context_model_load` installs no model).  `modelData` is the retained
`Option<Vec<u8>>` byte buffer, `modelCell` the `Cell<Option<Model>>`
wrapper cache (a `Model` is its native handle), and `tensors` the
`RefCell<Vec<(i32, Tensor)>>` cache as (layer index, native tensor
handle) pairs in insertion order. -/
structure Context where
  nativeModel : Option Nat
  modelData : Option (List Nat)
  modelCell : Option Nat
  tensors : List (Int × Nat)
deriving DecidableEq, Repr

/-- The `Context::unload_model` of src/context.rs: `nn_context_model_unload`
(clearing the runtime's parsed view), then replace the tensor cache with a
fresh empty vector, drop the byte buffer, and clear the model cell. -/
def Context.unloadModel (_c : Context) : Context :=
  { nativeModel := none, modelData := none, modelCell := none, tensors := [] }

/-- The `Context::model` of src/context.rs: return the cached `Model` if
the cell holds one; otherwise ask `nn_context_model`, return `None` on
null, else wrap the non-null handle (`Model::try_from_ptr` cannot fail on
a non-null pointer), store it in the cell and return it. -/
def Context.model (c : Context) : Context × Option Nat :=
  match c.modelCell with
  | some m => (c, some m)
  | none =>
    match c.nativeModel with
    | none => (c, none)
    | some h => ({ c with modelCell := some h }, some h)

/-- The `Context::load_model` of src/context.rs: first `unload_model()`,
then move the bytes into `model_data`, then `nn_context_model_load`
(the `parse` oracle: `Except` error carries the non-success `NNError`
code; modelled from the spec, a failing parse leaves no model bound).
Non-success maps through `Error::from`. -/
def Context.loadModel (parse : List Nat → Except Nat Nat)
    (strerror : Nat → Option (List Nat)) (c : Context) (data : List Nat) :
    Context × Except Error Unit :=
  let c0 := c.unloadModel
  let c1 := { c0 with modelData := some data }
  match parse data with
  | .ok h => ({ c1 with nativeModel := some h }, .ok ())
  | .error code => (c1, .error (Error.fromCode strerror code))

/-- Position of the first cache entry with the given layer index — the
`for (index_, tensor) in tensors_ref { if index_ == &index { return
Ok(tensor) } }` loop of src/context.rs, with the returned `&Tensor`
identified by its position in the vector. -/
def findFirst (i : Int) : List (Int × Nat) → Option Nat
  | [] => none
  | e :: rest => if e.1 = i then some 0 else Option.map (· + 1) (findFirst i rest)

/-- The `Context::tensor_index` of src/context.rs: `nn_context_tensor_index`
(the `native` oracle; `none` = null → `WrapperError`), then unconditionally
push a fresh `Tensor` wrapper `(index as i32, tensor)` onto the cache
vector, then scan the vector from the front and return (the position of)
the first entry whose index matches.  The sequential embedding elides the
`try_borrow_mut` re-entrancy check, which cannot fail in a single-threaded
straight-line call. -/
def Context.tensorIndex (native : Nat → Option Nat) (cache : List (Int × Nat)) (index : Nat) :
    List (Int × Nat) × Except Error Nat :=
  match native index with
  | none => (cache, .error (.WrapperError "No tensor found"))
  | some h =>
    let cache1 := cache ++ [(i32Cast index, h)]
    match findFirst (i32Cast index) cache1 with
    | some pos => (cache1, .ok pos)
    | none => (cache1, .error (.WrapperError "Tensor not found"))

/-- The `Model::layer_shape` of src/model.rs: the local `n_dims` is
initialized to `-1`, but the out-parameter passed to
`nn_model_layer_shape` is `&mut (n_dims as usize)` — the address of a
temporary holding the cast's result — so the native write (the second
component of the oracle's answer) never reaches the local, which still
holds `-1` at the check `ret.is_null() || n_dims == -1`. -/
def Model.layerShape (native : Nat → Option (List Int) × Nat) (index : Nat) :
    Except Error (List Int) :=
  let nDims : Int := -1
  let call := native index
  if call.1.isNone || (nDims == -1) then .error (.WrapperError "Index out of range")
  else .ok ((call.1.getD []).take (usizeCast nDims))

/-- Appending an entry to a cache does not change the position of an
existing first match. -/
theorem findFirst_append_of_some {i : Int} (x : Int × Nat) :
    ∀ {l : List (Int × Nat)} {p : Nat}, findFirst i l = some p →
      findFirst i (l ++ [x]) = some p := by
  intro l
  induction l with
  | nil => intro p h; simp [findFirst] at h
  | cons e rest ih =>
    intro p h
    by_cases he : e.1 = i
    · simp only [findFirst, List.cons_append, he, if_pos] at h ⊢
      exact h
    · simp only [findFirst, List.cons_append, he, if_neg, not_false_iff] at h ⊢
      cases hr : findFirst i rest with
      | none => rw [hr] at h; simp at h
      | some q =>
        rw [hr] at h
        rw [List.append_eq, ih hr]
        simpa using h

/-- Appending an entry keyed by `i` to a cache with no prior match for `i`
makes the appended position the first match. -/
theorem findFirst_append_self (i : Int) (hnd : Nat) :
    ∀ {l : List (Int × Nat)}, findFirst i l = none →
      findFirst i (l ++ [(i, hnd)]) = some l.length := by
  intro l
  induction l with
  | nil => intro _; simp [findFirst]
  | cons e rest ih =>
    intro h
    by_cases he : e.1 = i
    · simp [findFirst, he] at h
    · simp only [findFirst, List.cons_append, he, if_neg, not_false_iff,
        Option.map_eq_none'] at h ⊢
      rw [List.append_eq, ih h]
      simp

/-- Claim C1 (code bug): on a tensor whose runtime-reported element type
is F16 and whose native map succeeds, `mapro` returns the `RAW` variant
of `MappedData` (discriminant 0), not the `F16` variant (discriminant 10)
matching the reported type. -/
theorem mapro_f16_yields_raw_variant :
    NNTensor.mapro { ttype := .F16, size := 2, axis := 0, mapped := some [1, 2] } =
      .ok (MappedData.RAW [[1], [2]]) ∧
    (MappedData.RAW [[1], [2]]).tag = 0 ∧
    TensorType.F16.tag = 10 := by
  decide

/-- Claim C2 counterexample: with the native lookup returning handle 7 for
layer index 0, two successive `tensor_index(0)` calls starting from an
empty cache leave two independent wrapper entries for index 0 in the
cache, refuting "the tensor cache contains at most one wrapper per layer
index" and "never constructs and inserts a second independent wrapper". -/
theorem tensor_index_duplicate_cache_entries :
    (Context.tensorIndex (fun _ => some 7)
        (Context.tensorIndex (fun _ => some 7) [] 0).1 0).1 =
      [((0 : Int), 7), ((0 : Int), 7)] ∧
    ((Context.tensorIndex (fun _ => some 7)
        (Context.tensorIndex (fun _ => some 7) [] 0).1 0).1.countP
      (fun e => e.1 == (0 : Int))) = 2 := by
  decide

/-- Unfolding equation for `Context.tensorIndex` when the native lookup
succeeds and the post-push scan finds position `p`. -/
theorem tensorIndex_eq_of_found
    (native : Nat → Option Nat) (c : List (Int × Nat)) (i : Nat) (hnd p : Nat)
    (hn : native i = some hnd)
    (hf : findFirst (i32Cast i) (c ++ [(i32Cast i, hnd)]) = some p) :
    Context.tensorIndex native c i = (c ++ [(i32Cast i, hnd)], .ok p) := by
  simp only [Context.tensorIndex, hn, hf]

set_option maxRecDepth 4096 in
/-- Claim C2 (amended): every successful `tensor_index(i)` call appends a
fresh wrapper to the cache (so duplicate wrappers for the same index
accumulate), and the returned reference is always to the first cache
entry for that index; in particular two successive `tensor_index(i)`
calls return references to the same wrapper. -/
theorem tensor_index_returns_first_cached_wrapper
    (native : Nat → Option Nat) (c : List (Int × Nat)) (i : Nat) (hnd : Nat)
    (hn : native i = some hnd) :
    (Context.tensorIndex native c i).1 = c ++ [(i32Cast i, hnd)] ∧
    (Context.tensorIndex native c i).2 =
      .ok ((findFirst (i32Cast i) c).getD c.length) ∧
    (Context.tensorIndex native (Context.tensorIndex native c i).1 i).2 =
      (Context.tensorIndex native c i).2 := by
  cases hfc : findFirst (i32Cast i) c with
  | some p =>
    have h1 : findFirst (i32Cast i) (c ++ [(i32Cast i, hnd)]) = some p :=
      findFirst_append_of_some ((i32Cast i, hnd)) hfc
    have h2 : findFirst (i32Cast i) ((c ++ [(i32Cast i, hnd)]) ++ [(i32Cast i, hnd)]) = some p :=
      findFirst_append_of_some ((i32Cast i, hnd)) h1
    have he := tensorIndex_eq_of_found native c i hnd p hn h1
    have he2 := tensorIndex_eq_of_found native (c ++ [(i32Cast i, hnd)]) i hnd p hn h2
    refine ⟨by rw [he], ?_, ?_⟩
    · rw [he]
      simp [Option.getD_some]
    · rw [he]
      dsimp only
      rw [he2]
  | none =>
    have h1 : findFirst (i32Cast i) (c ++ [(i32Cast i, hnd)]) = some c.length :=
      findFirst_append_self (i32Cast i) hnd hfc
    have h2 : findFirst (i32Cast i) ((c ++ [(i32Cast i, hnd)]) ++ [(i32Cast i, hnd)]) =
        some c.length :=
      findFirst_append_of_some ((i32Cast i, hnd)) h1
    have he := tensorIndex_eq_of_found native c i hnd c.length hn h1
    have he2 := tensorIndex_eq_of_found native (c ++ [(i32Cast i, hnd)]) i hnd c.length hn h2
    refine ⟨by rw [he], ?_, ?_⟩
    · rw [he]
      simp [Option.getD_none]
    · rw [he]
      dsimp only
      rw [he2]

/-- Witness for the amended claim C2, at the native lookup returning
handle 5 for every index, an empty starting cache and index 0. -/
theorem tensor_index_returns_first_cached_wrapper_witness :
    (Context.tensorIndex (fun _ => some 5) [] 0).1 =
      [] ++ [(i32Cast 0, 5)] ∧
    (Context.tensorIndex (fun _ => some 5) [] 0).2 =
      .ok ((findFirst (i32Cast 0) []).getD ([] : List (Int × Nat)).length) ∧
    (Context.tensorIndex (fun _ => some 5)
        (Context.tensorIndex (fun _ => some 5) [] 0).1 0).2 =
      (Context.tensorIndex (fun _ => some 5) [] 0).2 :=
  tensor_index_returns_first_cached_wrapper (fun _ => some 5) [] 0 5 rfl

/-- Claim C3 (code bug): on a STR-typed tensor whose native map succeeds
with bytes that are not valid UTF-8, `mapro` propagates the decode error
before constructing the `TensorData` view, so the `Drop` that would unmap
never runs: the unmap count over the whole call is 0, not 1. -/
theorem mapro_str_decode_failure_skips_unmap :
    maproCycleUnmaps { ttype := .STR, size := 1, axis := 0, mapped := some [255, 0] } = 0 ∧
    ({ ttype := .STR, size := 1, axis := 0, mapped := some [255, 0] } : NNTensor).mapped.isSome
      = true ∧
    NNTensor.mapro { ttype := .STR, size := 1, axis := 0, mapped := some [255, 0] } =
      .error (.WrapperError "invalid utf-8 sequence") := by
  decide

/-- Claim C4 (code bug): a scales slice whose length equals the tensor's
axis cardinality (here 3 = 3) is rejected with a `WrapperError` and never
forwarded, because the validation reads `scales.len() < axis || scales.len() != 1`,
contradicting the accept-set stated by the claim and by the code's own
error message. -/
theorem set_scales_rejects_length_equal_axis :
    (setScales (α := Unit) { axis := 3, scales := none } [(), (), ()]).result =
      .error (.WrapperError
        "scales should either have length of 1 or equal to channel_dimension (axis)") ∧
    (setScales (α := Unit) { axis := 3, scales := none } [(), (), ()]).forwarded = false ∧
    ([(), (), ()] : List Unit).length = usizeCast 3 := by
  decide

/-- Claim C5: `unload_model` clears the cached model reference, empties
the tensor-wrapper cache, drops the retained byte buffer and releases the
runtime's parsed view; a subsequent `model()` returns `None`, and the
call is idempotent (safe when no model is loaded). -/
theorem unload_model_clears_state :
    ∀ c : Context,
      (Context.model (Context.unloadModel c)).2 = none ∧
      (Context.unloadModel c).modelCell = none ∧
      (Context.unloadModel c).tensors = [] ∧
      (Context.unloadModel c).modelData = none ∧
      (Context.unloadModel c).nativeModel = none ∧
      Context.unloadModel (Context.unloadModel c) = Context.unloadModel c := by
  intro c
  exact ⟨rfl, rfl, rfl, rfl, rfl, rfl⟩

/-- Claim C6: `Engine::new` returns a `WrapperError` when the native
allocation returns null or when the path holds an embedded NUL; when the
load step reports a non-success code it returns the mapped native error
and the already-allocated handle is released exactly once. -/
theorem engine_new_error_paths :
    ∀ (path : List Nat) (load : Nat → List Nat → Nat)
      (strerror : Nat → Option (List Nat)) (h : Nat),
      (Engine.new none path load strerror).result =
        .error (.WrapperError "nn_engine_init memory allocated failed") ∧
      (path.contains 0 = true →
        (Engine.new (some h) path load strerror).result =
          .error (.WrapperError "nul byte found in provided data") ∧
        (Engine.new (some h) path load strerror).releases = 1) ∧
      (path.contains 0 = false → load h path ≠ 0 →
        (Engine.new (some h) path load strerror).result =
          .error (Error.fromCode strerror (load h path)) ∧
        (Engine.new (some h) path load strerror).releases = 1) := by
  intro path load strerror h
  refine ⟨rfl, ?_, ?_⟩
  · intro hc
    have hm : (0 : Nat) ∈ path := by simpa using hc
    simp [Engine.new, hm]
  · intro hc hl
    have hm : (0 : Nat) ∉ path := by simpa using hc
    simp [Engine.new, hm, hl]

/-- Witness for claim C6: a NUL-bearing path, a failing load with code 5,
and a null allocation, each at concrete inputs. -/
theorem engine_new_error_paths_witness :
    ((Engine.new (some 1) [0] (fun _ _ => 0) (fun _ => none)).result =
        .error (.WrapperError "nul byte found in provided data") ∧
      (Engine.new (some 1) [0] (fun _ _ => 0) (fun _ => none)).releases = 1) ∧
    ((Engine.new (some 1) [97] (fun _ _ => 5) (fun _ => some [101, 0])).result =
        .error (Error.fromCode (fun _ => some [101, 0]) 5) ∧
      (Engine.new (some 1) [97] (fun _ _ => 5) (fun _ => some [101, 0])).releases = 1) ∧
    (Engine.new none [] (fun _ _ => 0) (fun _ => none)).result =
      .error (.WrapperError "nn_engine_init memory allocated failed") := by
  refine ⟨?_, ?_, ?_⟩
  · exact (engine_new_error_paths [0] (fun _ _ => 0) (fun _ => none) 1).2.1 (by decide)
  · exact (engine_new_error_paths [97] (fun _ _ => 5) (fun _ => some [101, 0]) 1).2.2
      (by decide) (by decide)
  · exact (engine_new_error_paths [] (fun _ _ => 0) (fun _ => none) 1).1

/-- Claim C7 (code bug): `Engine::name` and `Engine::version` return
`None` on a null native pointer, but on a native string that is not valid
UTF-8 they panic through `to_str().unwrap()` instead of surfacing an
error. -/
theorem engine_name_version_panic_on_invalid_utf8 :
    Engine.nameCall (some [255, 0]) = .panicked ∧
    Engine.versionCall (some [255, 0]) = .panicked ∧
    Engine.nameCall none = .noValue ∧
    Engine.versionCall none = .noValue := by
  decide

/-- Claim C8: `load_model` first unloads (clearing cache, cell and native
view), takes ownership of the bytes, and on a native parse failure
returns the mapped native error with no model bound: a subsequent
`model()` returns `None`. -/
theorem load_model_failure_leaves_no_model :
    ∀ (parse : List Nat → Except Nat Nat) (strerror : Nat → Option (List Nat))
      (c : Context) (data : List Nat) (code : Nat),
      parse data = .error code →
      (Context.loadModel parse strerror c data).2 = .error (Error.fromCode strerror code) ∧
      (Context.model (Context.loadModel parse strerror c data).1).2 = none ∧
      (Context.loadModel parse strerror c data).1.nativeModel = none ∧
      (Context.loadModel parse strerror c data).1.modelCell = none ∧
      (Context.loadModel parse strerror c data).1.tensors = [] ∧
      (Context.loadModel parse strerror c data).1.modelData = some data := by
  intro parse strerror c data code hp
  simp [Context.loadModel, Context.unloadModel, Context.model, hp]

/-- Witness for claim C8: a parse oracle failing with code 3 on a context
that had a model, a byte buffer, a cached model cell and a cached tensor
wrapper. -/
theorem load_model_failure_leaves_no_model_witness :
    (Context.loadModel (fun _ => .error 3) (fun _ => none)
        { nativeModel := some 9, modelData := some [1], modelCell := some 9,
          tensors := [((0 : Int), 7)] } [1, 2]).2 =
      .error (Error.fromCode (fun _ => none) 3) ∧
    (Context.model (Context.loadModel (fun _ => .error 3) (fun _ => none)
        { nativeModel := some 9, modelData := some [1], modelCell := some 9,
          tensors := [((0 : Int), 7)] } [1, 2]).1).2 = none ∧
    (Context.loadModel (fun _ => .error 3) (fun _ => none)
        { nativeModel := some 9, modelData := some [1], modelCell := some 9,
          tensors := [((0 : Int), 7)] } [1, 2]).1.nativeModel = none ∧
    (Context.loadModel (fun _ => .error 3) (fun _ => none)
        { nativeModel := some 9, modelData := some [1], modelCell := some 9,
          tensors := [((0 : Int), 7)] } [1, 2]).1.modelCell = none ∧
    (Context.loadModel (fun _ => .error 3) (fun _ => none)
        { nativeModel := some 9, modelData := some [1], modelCell := some 9,
          tensors := [((0 : Int), 7)] } [1, 2]).1.tensors = [] ∧
    (Context.loadModel (fun _ => .error 3) (fun _ => none)
        { nativeModel := some 9, modelData := some [1], modelCell := some 9,
          tensors := [((0 : Int), 7)] } [1, 2]).1.modelData = some [1, 2] :=
  load_model_failure_leaves_no_model (fun _ => .error 3) (fun _ => none)
    { nativeModel := some 9, modelData := some [1], modelCell := some 9,
      tensors := [((0 : Int), 7)] } [1, 2] 3 rfl

/-- Claim C9: `set_scales` overwrites the wrapper's cached `scales` field
with a copy of the argument before the length validation, so the field
holds the (possibly rejected) input on every exit, including the
`WrapperError` one. -/
theorem set_scales_overwrites_cache_before_validation :
    ∀ (α : Type) (t : TensorScalesState α) (s : List α),
      (setScales t s).state.scales = some s := by
  intro α t s
  simp only [setScales]
  split <;> rfl

/-- Claim C10: `Model::layer_shape` returns the `WrapperError` for every
index and every native behaviour, because the `-1` dimension-count
sentinel is passed through a temporary and never overwritten. -/
theorem layer_shape_always_errors :
    ∀ (native : Nat → Option (List Int) × Nat) (index : Nat),
      Model.layerShape native index = .error (.WrapperError "Index out of range") := by
  intro native index
  simp [Model.layerShape]

end DeepViewRT
